import Mathlib

/-!
Shallow embedding of `apps/worker/scripts/instaloader_extract.py`.

The single function of the script, `extract_post_data(url, username, password)`, builds an
Instaloader client, optionally logs in, parses a shortcode out of the URL, fetches
the post metadata, derives fields (caption, hashtags, author, media URLs),
downloads each media asset into a freshly created temporary directory, and returns
a result dictionary.  The CLI wrapper `main()` parses arguments and environment
variables and serializes the result.

All external effects of the script (the Instaloader library calls, the HTTP
downloads, `tempfile.mkdtemp`) are modelled by an oracle structure `World`; the
side effects performed by a call are recorded in an event trace (`Event`) and a
list of stderr warning lines, so that theorems can speak about which network and
filesystem operations a call performs.  Exceptions raised by library calls are
modelled as oracle outcomes (`LoginOutcome`, `FetchOutcome`, `Except` results for
downloads); the Python `try/except` blocks become the matches on those outcomes.
`Post` accessors are modelled as pure fields.
-/

/-! ### Python string primitives

`stripSep sep l` returns `some rem` when `sep` is a prefix of `l` (with `rem` the
rest), `afterMarker sep l` the remainder after the first occurrence of `sep` in
`l`, and `upToMarker sep l` the prefix of `l` before the first occurrence of
`sep` (all of `l` when `sep` does not occur).  Together they model the Python
substring test `sep in s` and the slicing done by `s.split(sep)[i]` at the
call sites in the script. -/

def stripSep : List Char → List Char → Option (List Char)
  | [], l => some l
  | _ :: _, [] => none
  | s :: ss, c :: cs => if c = s then stripSep ss cs else none

def afterMarker (sep : List Char) : List Char → Option (List Char)
  | [] => none
  | c :: rest =>
    match stripSep sep (c :: rest) with
    | some rem => some rem
    | none => afterMarker sep rest

def upToMarker (sep : List Char) : List Char → List Char
  | [] => []
  | c :: rest =>
    match stripSep sep (c :: rest) with
    | some _ => []
    | none => c :: upToMarker sep rest

/-- Substring containment in Python: `sub in s` (`"" in s` is `True`). -/
def pyIn (sub s : String) : Bool :=
  match sub.data with
  | [] => true
  | c :: cs => (afterMarker (c :: cs) s.data).isSome

/-- Python truthiness of an `Optional[str]`: `None` and `""` are falsy. -/
def truthyOpt : Option String → Bool
  | none => false
  | some s => !(s == "")

/-- The Python `a or b` on `Optional[str]` values (used by `main` for the
credential fallback to environment variables). -/
def pyOrStr (a b : Option String) : Option String :=
  match a with
  | none => b
  | some s => if s = "" then b else some s

/-! ### Hashtag extraction

`re.findall` with pattern `#[\w]+` scans the caption left to right and returns each maximal
match of a `#` followed by one or more word characters.  `hashtagAux` is that
scan as a state machine over the character list: state `none` means "scanning",
state `some acc` means "a `#` has been read and `acc` (reversed) holds the word
characters matched so far".  `isWordChar` is the ASCII fragment of Python's
`\w`. -/

def isWordChar (c : Char) : Bool := c.isAlphanum || c = '_'

def hashtagAux : Option (List Char) → List Char → List String
  | none, [] => []
  | none, c :: rest =>
    if c = '#' then hashtagAux (some []) rest else hashtagAux none rest
  | some acc, [] => if acc = [] then [] else [⟨'#' :: acc.reverse⟩]
  | some acc, c :: rest =>
    if isWordChar c then hashtagAux (some (c :: acc)) rest
    else if acc = [] then
      if c = '#' then hashtagAux (some []) rest else hashtagAux none rest
    else
      (⟨'#' :: acc.reverse⟩ : String) ::
        (if c = '#' then hashtagAux (some []) rest else hashtagAux none rest)

/-- All matches of the hashtag pattern in `s`, in order, duplicates kept. -/
def findHashtags (s : String) : List String := hashtagAux none s.data

/-! ### Data model for the library objects and the oracle world -/

/-- A carousel child as exposed by `post.get_sidecar_nodes()`. -/
structure SidecarNode where
  is_video : Bool
  video_url : String
  display_url : String
deriving Repr, DecidableEq

/-- The fields of an `instaloader.Post` that the script reads.  `caption` is
optional (`None` in Python); `date_utc` holds the `isoformat()` rendering of the
timestamp when present. -/
structure Post where
  caption : Option String
  owner_username : String
  is_video : Bool
  video_url : String
  typename : String
  sidecar_nodes : List SidecarNode
  url : String
  likes : Int
  comments : Int
  date_utc : Option String
deriving Repr, DecidableEq

/-- Outcome of `loader.login(username, password)`: success, one of the two
exceptions the script catches, or any other exception (which propagates to the
outer `try`). -/
inductive LoginOutcome where
  | ok
  | badCredentials
  | twoFactorRequired
  | raised (msg : String)
deriving Repr, DecidableEq

/-- Outcome of `instaloader.Post.from_shortcode`: a post, one of the two
exceptions the script catches specifically, or any other exception (caught by
the inner catch-all). -/
inductive FetchOutcome where
  | ok (post : Post)
  | notFound
  | privateNotFollowed
  | raised (msg : String)
deriving Repr, DecidableEq

/-- Side effects a call performs, in order.  `login`, `fetchPost` and
`urlretrieve` are network calls; `mkdtemp` and `fileWrite` are filesystem
effects; `rmtree` would be the (commented-out) temp-directory removal, which the
script never performs. -/
inductive Event where
  | login (user : String)
  | mkdtemp (path : String)
  | fetchPost (shortcode : String)
  | urlretrieve (url : String) (path : String)
  | fileWrite (path : String)
  | rmtree (path : String)
deriving Repr, DecidableEq

/-- Oracle for the environment of the script: whether `instaloader.Instaloader(...)`
raises, the outcome of a login, the outcome of a metadata fetch per shortcode,
the outcome of each `urllib.request.urlretrieve(url, filepath)` call, and the
directory name returned by `tempfile.mkdtemp`. -/
structure World where
  constructError : Option String
  login : String → String → LoginOutcome
  fetchPost : String → FetchOutcome
  urlretrieve : String → String → Except String Unit
  mkdtempDir : String

/-- One entry of the `downloaded_media` list. -/
structure MediaFile where
  type : String
  url : String
  local_path : String
  filename : String
deriving Repr, DecidableEq

/-- The result dictionary.  Keys absent from a given Python dict are modelled by
the default values (error dicts carry only `error` and `success`; the success
dict has no `error` key, modelled as `none`). -/
structure ResultDict where
  success : Bool
  error : Option String := none
  text : Option String := none
  author : Option String := none
  author_url : Option String := none
  hashtags : List String := []
  is_reel : Bool := false
  is_video : Bool := false
  like_count : Option Int := none
  comment_count : Option Int := none
  timestamp : Option String := none
  image_urls : List String := []
  video_urls : List String := []
  media_files : List MediaFile := []
  shortcode : Option String := none
  post_url : Option String := none
deriving Repr, DecidableEq

/-- Observable outcome of a call: the returned dictionary, the ordered trace of
external effects, and the warning lines printed to stderr. -/
structure Output where
  result : ResultDict
  events : List Event
  warnings : List String
deriving Repr, DecidableEq

/-- Error dictionary: the message under the error key, with a false success flag. -/
def errDict (msg : String) : ResultDict := { success := false, error := some msg }

/-! ### The extraction pipeline -/

/-- Lines 74-89: shortcode extraction.  `url.split(m)[1]` is the text after the
first occurrence of the marker `m`, truncated at the next occurrence of `m`;
the subsequent `.split("/")[0]` and `.split("?")[0]` truncate at the next `/`
and `?`.  Returns `none` when neither marker occurs (the
"Invalid Instagram URL format" branch). -/
def extractShortcode (url : String) : Option String :=
  if pyIn "/p/" url then
    some ⟨upToMarker ['?'] (upToMarker ['/']
      (upToMarker "/p/".data ((afterMarker "/p/".data url.data).getD [])))⟩
  else if pyIn "/reel/" url then
    some ⟨upToMarker ['?'] (upToMarker ['/']
      (upToMarker "/reel/".data ((afterMarker "/reel/".data url.data).getD [])))⟩
  else none

/-- Lines 119-124: the loop over `post.get_sidecar_nodes()` appending to
`image_urls` / `video_urls`; returns `(image_urls, video_urls)`. -/
def collectSidecar : List SidecarNode → List String × List String
  | [] => ([], [])
  | n :: rest =>
    let tail := collectSidecar rest
    if n.is_video then (tail.1, n.video_url :: tail.2)
    else (n.display_url :: tail.1, tail.2)

/-- Lines 112-126: media URL collection; returns `(image_urls, video_urls)`. -/
def collectMedia (post : Post) : List String × List String :=
  if post.is_video then ([], [post.video_url])
  else if post.typename = "GraphSidecar" then collectSidecar post.sidecar_nodes
  else ([post.url], [])

/-- Result of one of the two download loops. -/
structure DlOut where
  files : List MediaFile
  warns : List String
  events : List Event
deriving Repr, DecidableEq

/-- Lines 131-166: one download loop (`kind`/`ext` are `"image"`/`"jpg"` or
`"video"`/`"mp4"`; the two Python loops differ only in those words).  `idx` is
the `enumerate` counter.  A failed `urlretrieve` prints a warning and skips the
append; the loop continues. -/
def downloadAll (w : World) (temp_dir kind ext : String) :
    List String → Nat → DlOut
  | [], _ => ⟨[], [], []⟩
  | u :: rest, idx =>
    let filename := kind ++ "_" ++ Nat.repr (idx + 1) ++ "." ++ ext
    let filepath := temp_dir ++ "/" ++ filename
    let tail := downloadAll w temp_dir kind ext rest (idx + 1)
    match w.urlretrieve u filepath with
    | Except.ok _ =>
      ⟨{ type := kind, url := u, local_path := filepath, filename := filename } :: tail.files,
       tail.warns,
       Event.urlretrieve u filepath :: Event.fileWrite filepath :: tail.events⟩
    | Except.error e =>
      ⟨tail.files,
       ("Warning: Failed to download " ++ kind ++ " " ++ Nat.repr (idx + 1) ++ ": " ++ e)
         :: tail.warns,
       Event.urlretrieve u filepath :: tail.events⟩

/-- Lines 98-187: field derivation, media collection, downloads, and assembly of
the success dictionary, after a successful metadata fetch. -/
def buildResult (url sc temp_dir : String) (post : Post) (w : World) : Output :=
  let caption := post.caption.getD ""
  let author := if post.owner_username = "" then none else some post.owner_username
  let hashtags := if caption = "" then [] else (findHashtags caption).dedup
  let media := collectMedia post
  let image_urls := media.1
  let video_urls := media.2
  let dImg := downloadAll w temp_dir "image" "jpg" image_urls 0
  let dVid := downloadAll w temp_dir "video" "mp4" video_urls 0
  { result :=
    { success := true
      error := none
      text := some caption
      author := author
      author_url := match author with
        | some a => some ("https://instagram.com/" ++ a)
        | none => none
      hashtags := hashtags
      is_reel := post.is_video && pyIn "/reel/" url
      is_video := post.is_video
      like_count := some post.likes
      comment_count := some post.comments
      timestamp := post.date_utc
      image_urls := image_urls
      video_urls := video_urls
      media_files := dImg.files ++ dVid.files
      shortcode := some sc
      post_url := some ("https://www.instagram.com/p/" ++ sc ++ "/") }
    events := dImg.events ++ dVid.events
    warnings := dImg.warns ++ dVid.warns }

/-- Lines 94-203: the metadata fetch and its handlers (the inner `try`). -/
def stageFetch (url sc temp_dir : String) (w : World) : Output :=
  match w.fetchPost sc with
  | FetchOutcome.ok post =>
    let b := buildResult url sc temp_dir post w
    ⟨b.result, Event.fetchPost sc :: b.events, b.warnings⟩
  | FetchOutcome.notFound =>
    ⟨errDict "Post not found. It may be private or deleted.", [Event.fetchPost sc], []⟩
  | FetchOutcome.privateNotFollowed =>
    ⟨errDict "Post is from a private profile that you don't follow. Login required.",
     [Event.fetchPost sc], []⟩
  | FetchOutcome.raised e =>
    ⟨errDict ("Failed to extract post: " ++ e), [Event.fetchPost sc], []⟩

/-- Lines 72-207: everything after the (optional) login: shortcode extraction
and its two error returns, `tempfile.mkdtemp` (line 92), and the fetch stage.
The `finally` block is a no-op (the `shutil.rmtree` is commented out), so no
`rmtree` event is ever emitted. -/
def afterLogin (url : String) (w : World) : Output :=
  match extractShortcode url with
  | none => ⟨errDict ("Invalid Instagram URL format: " ++ url), [], []⟩
  | some sc =>
    if sc = "" then ⟨errDict "Could not extract shortcode from URL", [], []⟩
    else
      let temp_dir := w.mkdtempDir
      let s := stageFetch url sc temp_dir w
      ⟨s.result, Event.mkdtemp temp_dir :: s.events, s.warnings⟩

/-- Lines 58-70: the login `try/except`.  `BadCredentialsException` and
`TwoFactorAuthRequiredException` return an error dict immediately; any other
login exception reaches the outer handler (line 209); on success the rest of the
function runs (`afterLogin`). -/
def loginStage (url u p : String) (w : World) : Output :=
  match w.login u p with
  | LoginOutcome.ok => afterLogin url w
  | LoginOutcome.badCredentials => ⟨errDict "Invalid Instagram credentials", [], []⟩
  | LoginOutcome.twoFactorRequired =>
    ⟨errDict "Two-factor authentication required. Please use Instagram Basic Display API instead.",
     [], []⟩
  | LoginOutcome.raised e => ⟨errDict ("Instaloader extraction failed: " ++ e), [], []⟩

/-- Lines 31-213: `extract_post_data`.  Client construction first (an exception
there is caught by the outer handler, line 209); then login when both
credentials are truthy (`if username and password:`); then the URL is parsed
and the post processed.  Note the login call happens before URL validation. -/
def extract_post_data (url : String) (username password : Option String) (w : World) : Output :=
  match w.constructError with
  | some e => ⟨errDict ("Instaloader extraction failed: " ++ e), [], []⟩
  | none =>
    if truthyOpt username && truthyOpt password then
      let o := loginStage url (username.getD "") (password.getD "") w
      ⟨o.result, Event.login (username.getD "") :: o.events, o.warnings⟩
    else afterLogin url w

/-! ### The CLI wrapper `main` (lines 216-236) -/

/-- Parsed command-line arguments.  `--temp-dir` is accepted by the parser but
never read afterwards. -/
structure Args where
  url : String
  username : Option String := none
  password : Option String := none
  temp_dir : Option String := none
deriving Repr, DecidableEq

/-- The two environment variables `main` consults. -/
structure Env where
  INSTAGRAM_USERNAME : Option String := none
  INSTAGRAM_PASSWORD : Option String := none
deriving Repr, DecidableEq

/-- Observable behaviour of `main`: the extraction output (the JSON printed to
stdout is `out.result`) and the process exit code. -/
structure MainOut where
  out : Output
  exitCode : Nat
deriving Repr, DecidableEq

/-- Lines 216-236: credential fallback to the environment, the `extract_post_data`
call, and the exit code. -/
def mainRun (args : Args) (env : Env) (w : World) : MainOut :=
  let username := pyOrStr args.username env.INSTAGRAM_USERNAME
  let password := pyOrStr args.password env.INSTAGRAM_PASSWORD
  let out := extract_post_data args.url username password w
  { out := out, exitCode := if out.result.success then 0 else 1 }

/-! ### Spec-side characterizations used in theorem statements -/

/-- The media-file entries for exactly the assets whose download succeeds, in
order (`start` is the first `enumerate` index). -/
def successFiles (w : World) (temp_dir kind ext : String) (urls : List String) (start : Nat) :
    List MediaFile :=
  (List.enumFrom start urls).filterMap fun p =>
    let filename := kind ++ "_" ++ Nat.repr (p.1 + 1) ++ "." ++ ext
    let filepath := temp_dir ++ "/" ++ filename
    match w.urlretrieve p.2 filepath with
    | Except.ok _ =>
      some { type := kind, url := p.2, local_path := filepath, filename := filename }
    | Except.error _ => none

/-- One warning line for exactly the assets whose download fails, in order. -/
def failWarnings (w : World) (temp_dir kind ext : String) (urls : List String) (start : Nat) :
    List String :=
  (List.enumFrom start urls).filterMap fun p =>
    let filename := kind ++ "_" ++ Nat.repr (p.1 + 1) ++ "." ++ ext
    let filepath := temp_dir ++ "/" ++ filename
    match w.urlretrieve p.2 filepath with
    | Except.ok _ => none
    | Except.error e =>
      some ("Warning: Failed to download " ++ kind ++ " " ++ Nat.repr (p.1 + 1) ++ ": " ++ e)

def isMkdtempEvent : Event → Bool
  | Event.mkdtemp _ => true
  | _ => false

def isRetrieveEvent : Event → Bool
  | Event.urlretrieve _ _ => true
  | _ => false

/-- The result dictionary is structured: either a success dict with no error
key, or a failure dict carrying an error message. -/
def StructuredRes (o : Output) : Prop :=
  (o.result.success = true ∧ o.result.error = none) ∨
  (o.result.success = false ∧ ∃ msg, o.result.error = some msg)

/-! ### Concrete fixtures for witnesses and counterexamples -/

/-- A plain single-image post. -/
def imagePost : Post :=
  { caption := some "hello"
    owner_username := "alice"
    is_video := false
    video_url := ""
    typename := "GraphImage"
    sidecar_nodes := []
    url := "http://cdn/img.jpg"
    likes := 10
    comments := 2
    date_utc := some "2024-01-01T00:00:00" }

/-- A single-video post. -/
def videoPost : Post :=
  { imagePost with is_video := true, video_url := "http://cdn/vid.mp4", typename := "GraphVideo" }

/-- A three-child carousel: image, video, image. -/
def carouselPost : Post :=
  { imagePost with
    typename := "GraphSidecar"
    sidecar_nodes :=
      [ { is_video := false, video_url := "", display_url := "http://cdn/c1.jpg" },
        { is_video := true, video_url := "http://cdn/c2.mp4", display_url := "http://cdn/c2.jpg" },
        { is_video := false, video_url := "", display_url := "http://cdn/c3.jpg" } ] }

/-- An image post whose caption is the hashtag example from the spec. -/
def captionPost : Post :=
  { imagePost with caption := some "Great day! #sunny #fun #sunny" }

/-- A three-image carousel (for the download-failure scenario). -/
def threeImagePost : Post :=
  { imagePost with
    typename := "GraphSidecar"
    sidecar_nodes :=
      [ { is_video := false, video_url := "", display_url := "http://cdn/a1.jpg" },
        { is_video := false, video_url := "", display_url := "http://cdn/a2.jpg" },
        { is_video := false, video_url := "", display_url := "http://cdn/a3.jpg" } ] }

/-- A benign world serving `post` for every shortcode; every download succeeds. -/
def worldFor (post : Post) : World :=
  { constructError := none
    login := fun _ _ => LoginOutcome.ok
    fetchPost := fun _ => FetchOutcome.ok post
    urlretrieve := fun _ _ => Except.ok ()
    mkdtempDir := "/tmp/instaloader_fix" }

/-- World for the download-failure scenario: the download of the second image raises. -/
def worldOneFail : World :=
  { worldFor threeImagePost with
    urlretrieve := fun u _ =>
      if u = "http://cdn/a2.jpg" then Except.error "simulated network error" else Except.ok () }

def exUrlP : String := "https://www.instagram.com/p/ABC123/"

def exUrlReel : String := "https://www.instagram.com/reel/XYZ789?utm=1"

/-! ### Auxiliary lemmas -/

theorem aux_data_append (a b : String) : (a ++ b).data = a.data ++ b.data := rfl

theorem aux_length_append (a b : String) : (a ++ b).length = a.length + b.length := by
  show (a ++ b).data.length = a.data.length + b.data.length
  rw [aux_data_append, List.length_append]

theorem aux_append_ne_of_length_lt (a b t : String) (h : b.length < a.length) : a ++ t ≠ b := by
  intro he
  have hlen : (a ++ t).length = b.length := congrArg String.length he
  rw [aux_length_append] at hlen
  omega

theorem aux_append_ne_of_head (a b t : String) (c₁ c₂ : Char) (l₁ l₂ : List Char)
    (ha : a.data = c₁ :: l₁) (hb : b.data = c₂ :: l₂) (hne : c₁ ≠ c₂) : a ++ t ≠ b := by
  intro he
  have hd : (a ++ t).data = b.data := congrArg String.data he
  rw [aux_data_append, ha, hb, List.cons_append] at hd
  exact hne (List.head_eq_of_cons_eq hd)

theorem aux_dl_files (w : World) (td kind ext : String) (urls : List String) (start : Nat) :
    (downloadAll w td kind ext urls start).files = successFiles w td kind ext urls start := by
  induction urls generalizing start with
  | nil => rfl
  | cons u rest ih =>
    simp only [downloadAll, successFiles, List.enumFrom, List.filterMap_cons]
    split <;> simp_all [successFiles]

theorem aux_dl_warns (w : World) (td kind ext : String) (urls : List String) (start : Nat) :
    (downloadAll w td kind ext urls start).warns = failWarnings w td kind ext urls start := by
  induction urls generalizing start with
  | nil => rfl
  | cons u rest ih =>
    simp only [downloadAll, failWarnings, List.enumFrom, List.filterMap_cons]
    split <;> simp_all [failWarnings]

theorem aux_dl_attempts (w : World) (td kind ext : String) (urls : List String) (start : Nat) :
    ((downloadAll w td kind ext urls start).events.filter isRetrieveEvent).length = urls.length := by
  induction urls generalizing start with
  | nil => rfl
  | cons u rest ih =>
    simp only [downloadAll]
    split <;> simp_all [isRetrieveEvent, List.filter]

theorem aux_dl_events_mem (w : World) (td kind ext : String) (urls : List String) (start : Nat) :
    ∀ e ∈ (downloadAll w td kind ext urls start).events,
      (∃ u p, e = Event.urlretrieve u p) ∨ (∃ fn, e = Event.fileWrite (td ++ "/" ++ fn)) := by
  induction urls generalizing start with
  | nil => intro e he; cases he
  | cons u rest ih =>
    intro e he
    simp only [downloadAll] at he
    split at he
    · simp only [List.mem_cons] at he
      rcases he with he | he | he
      · exact Or.inl ⟨_, _, he⟩
      · exact Or.inr ⟨_, he⟩
      · exact ih _ _ he
    · simp only [List.mem_cons] at he
      rcases he with he | he
      · exact Or.inl ⟨_, _, he⟩
      · exact ih _ _ he

theorem aux_collectSidecar (nodes : List SidecarNode) :
    collectSidecar nodes =
      ((nodes.filter fun n => !n.is_video).map SidecarNode.display_url,
       (nodes.filter fun n => n.is_video).map SidecarNode.video_url) := by
  induction nodes with
  | nil => rfl
  | cons n rest ih =>
    simp only [collectSidecar, ih, List.filter_cons]
    cases h : n.is_video <;> simp [h]

theorem aux_buildResult_success (url sc td : String) (post : Post) (w : World) :
    (buildResult url sc td post w).result.success = true ∧
      (buildResult url sc td post w).result.error = none := ⟨rfl, rfl⟩

theorem aux_stageFetch_structured (url sc td : String) (w : World) :
    StructuredRes (stageFetch url sc td w) := by
  unfold stageFetch
  cases w.fetchPost sc with
  | ok post => exact Or.inl ⟨rfl, rfl⟩
  | notFound => exact Or.inr ⟨rfl, _, rfl⟩
  | privateNotFollowed => exact Or.inr ⟨rfl, _, rfl⟩
  | raised e => exact Or.inr ⟨rfl, _, rfl⟩

theorem aux_afterLogin_structured (url : String) (w : World) :
    StructuredRes (afterLogin url w) := by
  unfold afterLogin
  cases extractShortcode url with
  | none => exact Or.inr ⟨rfl, _, rfl⟩
  | some sc =>
    by_cases h : sc = ""
    · simp only [h, if_pos rfl]
      exact Or.inr ⟨rfl, _, rfl⟩
    · simp only [if_neg h]
      exact aux_stageFetch_structured url sc w.mkdtempDir w

theorem aux_loginStage_structured (url u p : String) (w : World) :
    StructuredRes (loginStage url u p w) := by
  unfold loginStage
  cases w.login u p with
  | ok => exact aux_afterLogin_structured url w
  | badCredentials => exact Or.inr ⟨rfl, _, rfl⟩
  | twoFactorRequired => exact Or.inr ⟨rfl, _, rfl⟩
  | raised e => exact Or.inr ⟨rfl, _, rfl⟩

theorem aux_afterLogin_reach (url : String) (w : World) (sc : String) (post : Post)
    (hs : extractShortcode url = some sc) (hne : sc ≠ "")
    (hf : w.fetchPost sc = FetchOutcome.ok post) :
    afterLogin url w =
      ⟨(buildResult url sc w.mkdtempDir post w).result,
       Event.mkdtemp w.mkdtempDir :: Event.fetchPost sc ::
         (buildResult url sc w.mkdtempDir post w).events,
       (buildResult url sc w.mkdtempDir post w).warnings⟩ := by
  unfold afterLogin
  rw [hs]
  simp only [if_neg hne]
  unfold stageFetch
  rw [hf]

theorem aux_extract_reach (url : String) (username password : Option String) (w : World)
    (sc : String) (post : Post)
    (hc : w.constructError = none)
    (hl : (truthyOpt username && truthyOpt password) = false ∨
      w.login (username.getD "") (password.getD "") = LoginOutcome.ok)
    (hs : extractShortcode url = some sc) (hne : sc ≠ "")
    (hf : w.fetchPost sc = FetchOutcome.ok post) :
    extract_post_data url username password w =
      ⟨(buildResult url sc w.mkdtempDir post w).result,
       (if truthyOpt username && truthyOpt password then [Event.login (username.getD "")] else []) ++
         Event.mkdtemp w.mkdtempDir :: Event.fetchPost sc ::
           (buildResult url sc w.mkdtempDir post w).events,
       (buildResult url sc w.mkdtempDir post w).warnings⟩ := by
  have hA := aux_afterLogin_reach url w sc post hs hne hf
  unfold extract_post_data
  rw [hc]
  by_cases hT : (truthyOpt username && truthyOpt password) = true
  · rcases hl with hl | hl
    · rw [hT] at hl; cases hl
    · simp [hT, loginStage, hl, hA]
  · have hF : (truthyOpt username && truthyOpt password) = false := by
      cases h : truthyOpt username && truthyOpt password
      · rfl
      · exact absurd h hT
    simp [hF, hA]

theorem aux_buildResult_events_mem (url sc : String) (post : Post) (w : World) :
    ∀ e ∈ (buildResult url sc w.mkdtempDir post w).events,
      (∃ u p, e = Event.urlretrieve u p) ∨
      (∃ fn, e = Event.fileWrite (w.mkdtempDir ++ "/" ++ fn)) := by
  intro e he
  rcases List.mem_append.mp he with h | h
  · exact aux_dl_events_mem w w.mkdtempDir "image" "jpg" _ 0 e h
  · exact aux_dl_events_mem w w.mkdtempDir "video" "mp4" _ 0 e h

theorem aux_afterLogin_events_mem (url : String) (w : World) :
    ∀ e ∈ (afterLogin url w).events,
      e = Event.mkdtemp w.mkdtempDir ∨ (∃ sc, e = Event.fetchPost sc) ∨
      (∃ u p, e = Event.urlretrieve u p) ∨
      (∃ fn, e = Event.fileWrite (w.mkdtempDir ++ "/" ++ fn)) := by
  unfold afterLogin
  cases hs : extractShortcode url with
  | none => intro e he; cases he
  | some sc =>
    by_cases h : sc = ""
    · simp only [h, if_pos rfl]; intro e he; cases he
    · simp only [if_neg h]
      unfold stageFetch
      cases hf : w.fetchPost sc with
      | ok post =>
        intro e he
        simp only [List.mem_cons] at he
        rcases he with he | he | he
        · exact Or.inl he
        · exact Or.inr (Or.inl ⟨_, he⟩)
        · rcases aux_buildResult_events_mem url sc post w e he with h' | h'
          · exact Or.inr (Or.inr (Or.inl h'))
          · exact Or.inr (Or.inr (Or.inr h'))
      | notFound =>
        intro e he
        simp only [List.mem_cons] at he
        rcases he with he | he | he
        · exact Or.inl he
        · exact Or.inr (Or.inl ⟨_, he⟩)
        · cases he
      | privateNotFollowed =>
        intro e he
        simp only [List.mem_cons] at he
        rcases he with he | he | he
        · exact Or.inl he
        · exact Or.inr (Or.inl ⟨_, he⟩)
        · cases he
      | raised msg =>
        intro e he
        simp only [List.mem_cons] at he
        rcases he with he | he | he
        · exact Or.inl he
        · exact Or.inr (Or.inl ⟨_, he⟩)
        · cases he

theorem aux_loginStage_events_mem (url u p : String) (w : World) :
    ∀ e ∈ (loginStage url u p w).events,
      e = Event.mkdtemp w.mkdtempDir ∨ (∃ sc, e = Event.fetchPost sc) ∨
      (∃ u' p', e = Event.urlretrieve u' p') ∨
      (∃ fn, e = Event.fileWrite (w.mkdtempDir ++ "/" ++ fn)) := by
  unfold loginStage
  cases w.login u p with
  | ok => exact aux_afterLogin_events_mem url w
  | badCredentials => intro e he; cases he
  | twoFactorRequired => intro e he; cases he
  | raised msg => intro e he; cases he

theorem aux_extract_events_mem (url : String) (username password : Option String) (w : World) :
    ∀ e ∈ (extract_post_data url username password w).events,
      (∃ u, e = Event.login u) ∨ e = Event.mkdtemp w.mkdtempDir ∨
      (∃ sc, e = Event.fetchPost sc) ∨ (∃ u p, e = Event.urlretrieve u p) ∨
      (∃ fn, e = Event.fileWrite (w.mkdtempDir ++ "/" ++ fn)) := by
  unfold extract_post_data
  cases w.constructError with
  | some msg => intro e he; cases he
  | none =>
    by_cases hT : (truthyOpt username && truthyOpt password) = true
    · rw [if_pos hT]
      intro e he
      rcases List.mem_cons.mp he with he | he
      · exact Or.inl ⟨_, he⟩
      · exact Or.inr (aux_loginStage_events_mem url _ _ w e he)
    · rw [if_neg hT]
      intro e he
      exact Or.inr (aux_afterLogin_events_mem url w e he)

theorem aux_extract_eq (url : String) (username password : Option String) (w : World)
    (hc : w.constructError = none)
    (hl : (truthyOpt username && truthyOpt password) = false ∨
      w.login (username.getD "") (password.getD "") = LoginOutcome.ok) :
    extract_post_data url username password w =
      ⟨(afterLogin url w).result,
       (if truthyOpt username && truthyOpt password then [Event.login (username.getD "")] else []) ++
         (afterLogin url w).events,
       (afterLogin url w).warnings⟩ := by
  unfold extract_post_data
  rw [hc]
  by_cases hT : (truthyOpt username && truthyOpt password) = true
  · rcases hl with hl | hl
    · rw [hT] at hl; cases hl
    · simp [hT, loginStage, hl]
  · have hF : (truthyOpt username && truthyOpt password) = false := by
      cases h : truthyOpt username && truthyOpt password
      · rfl
      · exact absurd h hT
    simp [hF]

theorem aux_afterLogin_badurl (url : String) (w : World) (hs : extractShortcode url = none) :
    afterLogin url w = ⟨errDict ("Invalid Instagram URL format: " ++ url), [], []⟩ := by
  unfold afterLogin; rw [hs]

theorem aux_afterLogin_emptysc (url : String) (w : World) (hs : extractShortcode url = some "") :
    afterLogin url w = ⟨errDict "Could not extract shortcode from URL", [], []⟩ := by
  unfold afterLogin; rw [hs]; simp

theorem aux_afterLogin_error_not_login (url : String) (w : World) :
    (afterLogin url w).result.error ≠ some "Invalid Instagram credentials" ∧
    (afterLogin url w).result.error ≠
      some "Two-factor authentication required. Please use Instagram Basic Display API instead." := by
  unfold afterLogin
  cases extractShortcode url with
  | none =>
    constructor
    · intro h
      exact aux_append_ne_of_length_lt "Invalid Instagram URL format: " _ url (by decide)
        (Option.some.inj h)
    · intro h
      exact aux_append_ne_of_head "Invalid Instagram URL format: " _ url 'I' 'T' _ _ rfl rfl
        (by decide) (Option.some.inj h)
  | some sc =>
    by_cases h : sc = ""
    · subst h
      exact ⟨fun hx => absurd (Option.some.inj hx) (by decide),
        fun hx => absurd (Option.some.inj hx) (by decide)⟩
    · simp only [if_neg h]
      unfold stageFetch
      cases w.fetchPost sc with
      | ok post => exact ⟨fun hx => Option.noConfusion hx, fun hx => Option.noConfusion hx⟩
      | notFound =>
        exact ⟨fun hx => absurd (Option.some.inj hx) (by decide),
          fun hx => absurd (Option.some.inj hx) (by decide)⟩
      | privateNotFollowed =>
        exact ⟨fun hx => absurd (Option.some.inj hx) (by decide),
          fun hx => absurd (Option.some.inj hx) (by decide)⟩
      | raised e =>
        constructor
        · intro hx
          exact aux_append_ne_of_head "Failed to extract post: " _ e 'F' 'I' _ _ rfl rfl
            (by decide) (Option.some.inj hx)
        · intro hx
          exact aux_append_ne_of_head "Failed to extract post: " _ e 'F' 'T' _ _ rfl rfl
            (by decide) (Option.some.inj hx)

theorem aux_buildResult_no_mkdtemp (url sc : String) (post : Post) (w : World) :
    (buildResult url sc w.mkdtempDir post w).events.countP isMkdtempEvent = 0 := by
  rw [List.countP_eq_zero]
  intro e he
  rcases aux_buildResult_events_mem url sc post w e he with ⟨u, p, h⟩ | ⟨fn, h⟩ <;>
    subst h <;> simp [isMkdtempEvent]

theorem aux_stageFetch_no_mkdtemp (url sc : String) (w : World) :
    (stageFetch url sc w.mkdtempDir w).events.countP isMkdtempEvent = 0 := by
  unfold stageFetch
  cases w.fetchPost sc with
  | ok post =>
    show (Event.fetchPost sc :: (buildResult url sc w.mkdtempDir post w).events).countP
      isMkdtempEvent = 0
    rw [List.countP_cons, aux_buildResult_no_mkdtemp]
    simp [isMkdtempEvent]
  | notFound => simp [List.countP_cons, isMkdtempEvent]
  | privateNotFollowed => simp [List.countP_cons, isMkdtempEvent]
  | raised e => simp [List.countP_cons, isMkdtempEvent]

theorem aux_afterLogin_count_le (url : String) (w : World) :
    (afterLogin url w).events.countP isMkdtempEvent ≤ 1 := by
  unfold afterLogin
  cases extractShortcode url with
  | none => simp
  | some sc =>
    by_cases h : sc = ""
    · simp [h]
    · simp only [if_neg h]
      show (Event.mkdtemp w.mkdtempDir :: (stageFetch url sc w.mkdtempDir w).events).countP
        isMkdtempEvent ≤ 1
      rw [List.countP_cons, aux_stageFetch_no_mkdtemp]
      simp [isMkdtempEvent]

theorem aux_afterLogin_count_one (url : String) (w : World) (sc : String)
    (hs : extractShortcode url = some sc) (hne : sc ≠ "") :
    (afterLogin url w).events.countP isMkdtempEvent = 1 := by
  unfold afterLogin
  rw [hs]
  simp only [if_neg hne]
  show (Event.mkdtemp w.mkdtempDir :: (stageFetch url sc w.mkdtempDir w).events).countP
    isMkdtempEvent = 1
  rw [List.countP_cons, aux_stageFetch_no_mkdtemp]
  simp [isMkdtempEvent]

theorem aux_loginStage_count_le (url u p : String) (w : World) :
    (loginStage url u p w).events.countP isMkdtempEvent ≤ 1 := by
  unfold loginStage
  cases w.login u p with
  | ok => exact aux_afterLogin_count_le url w
  | badCredentials => simp
  | twoFactorRequired => simp
  | raised e => simp

theorem aux_extract_count_le (url : String) (username password : Option String) (w : World) :
    (extract_post_data url username password w).events.countP isMkdtempEvent ≤ 1 := by
  unfold extract_post_data
  cases w.constructError with
  | some msg => simp
  | none =>
    by_cases hT : (truthyOpt username && truthyOpt password) = true
    · rw [if_pos hT]
      show (Event.login (username.getD "") ::
        (loginStage url (username.getD "") (password.getD "") w).events).countP
          isMkdtempEvent ≤ 1
      rw [List.countP_cons]
      have hle := aux_loginStage_count_le url (username.getD "") (password.getD "") w
      simp only [isMkdtempEvent, if_neg]
      simpa [isMkdtempEvent] using hle
    · rw [if_neg hT]
      exact aux_afterLogin_count_le url w

/-! ### Claim theorems -/

/-- Claim C1: for every input (url, username, password) and every environment
(including ones where client construction, login, the metadata fetch, or any
download raises), `extract_post_data` returns a structured result dictionary:
a success flag, with an error string exactly when the flag is false.  No
failure propagates as an uncaught exception (every oracle outcome is mapped to
a returned dictionary). -/
theorem extract_always_structured_result (url : String) (username password : Option String)
    (w : World) : StructuredRes (extract_post_data url username password w) := by
  unfold extract_post_data
  cases w.constructError with
  | some msg => exact Or.inr ⟨rfl, _, rfl⟩
  | none =>
    by_cases hT : (truthyOpt username && truthyOpt password) = true
    · rw [if_pos hT]
      exact aux_loginStage_structured url (username.getD "") (password.getD "") w
    · rw [if_neg hT]
      exact aux_afterLogin_structured url w

/-- Claim C2, counterexample: the claim asserts that for a URL without `/p/` or
`/reel/` no network call is attempted "whether or not username and password are
supplied".  But the code logs in before parsing the URL: with credentials
supplied and a malformed URL, the login network call is performed (the trace is
exactly `[login "alice"]`) even though the result is the malformed-url error. -/
theorem malformed_url_login_network_call_cx :
    (extract_post_data "https://example.com/about" (some "alice") (some "pw")
        (worldFor imagePost)).events = [Event.login "alice"] ∧
    (extract_post_data "https://example.com/about" (some "alice") (some "pw")
        (worldFor imagePost)).result.error =
      some "Invalid Instagram URL format: https://example.com/about" := by decide

/-- Claim C2, amended: for every URL whose shortcode extraction fails (no
marker, or empty identifier), provided client construction succeeds and the
login (if attempted) succeeds, extract returns the malformed-url error result
(resp. the empty-shortcode error), and attempts no metadata fetch, no media
download, and no temp-directory creation — the only event possibly in the trace
is the login call made before URL validation when both credentials are
supplied. -/
theorem malformed_url_no_fetch_or_download (url : String) (username password : Option String)
    (w : World)
    (hc : w.constructError = none)
    (hl : (truthyOpt username && truthyOpt password) = false ∨
      w.login (username.getD "") (password.getD "") = LoginOutcome.ok)
    (hs : extractShortcode url = none ∨ extractShortcode url = some "") :
    (extract_post_data url username password w).result.success = false ∧
    (extractShortcode url = none →
      (extract_post_data url username password w).result.error =
        some ("Invalid Instagram URL format: " ++ url)) ∧
    (extractShortcode url = some "" →
      (extract_post_data url username password w).result.error =
        some "Could not extract shortcode from URL") ∧
    (∀ e ∈ (extract_post_data url username password w).events,
      e = Event.login (username.getD "")) := by
  rw [aux_extract_eq url username password w hc hl]
  have hev : ∀ e ∈ (if truthyOpt username && truthyOpt password then
      [Event.login (username.getD "")] else []) ++ ([] : List Event),
      e = Event.login (username.getD "") := by
    intro e he
    rw [List.append_nil] at he
    split at he
    · exact List.mem_singleton.mp he
    · cases he
  rcases hs with hs | hs
  · rw [aux_afterLogin_badurl url w hs]
    refine ⟨rfl, fun _ => rfl, fun h => ?_, hev⟩
    rw [hs] at h; cases h
  · rw [aux_afterLogin_emptysc url w hs]
    refine ⟨rfl, fun h => ?_, fun _ => rfl, hev⟩
    rw [hs] at h; cases h

/-- Claim C2, amended, witness at a concrete malformed URL with no credentials:
the result is the malformed-url error and the event trace is empty. -/
theorem malformed_url_no_fetch_or_download_witness :
    (extract_post_data "https://example.com/about" none none (worldFor imagePost)).result.success
      = false ∧
    (extractShortcode "https://example.com/about" = none →
      (extract_post_data "https://example.com/about" none none (worldFor imagePost)).result.error =
        some ("Invalid Instagram URL format: " ++ "https://example.com/about")) ∧
    (extractShortcode "https://example.com/about" = some "" →
      (extract_post_data "https://example.com/about" none none (worldFor imagePost)).result.error =
        some "Could not extract shortcode from URL") ∧
    (∀ e ∈ (extract_post_data "https://example.com/about" none none (worldFor imagePost)).events,
      e = Event.login ((none : Option String).getD "")) :=
  malformed_url_no_fetch_or_download "https://example.com/about" none none (worldFor imagePost)
    rfl (Or.inl rfl) (Or.inl (by decide))

/-- Claim C3: when the call reaches a successful metadata fetch, the result is
a success whose `media_files` are exactly the entries for the assets whose
download succeeded (in order, failed assets omitted), one stderr warning line
is emitted per failed asset, and a download is attempted for every asset (one
`urlretrieve` event per collected URL). -/
theorem download_failures_nonfatal (url : String) (username password : Option String)
    (w : World) (sc : String) (post : Post)
    (hc : w.constructError = none)
    (hl : (truthyOpt username && truthyOpt password) = false ∨
      w.login (username.getD "") (password.getD "") = LoginOutcome.ok)
    (hs : extractShortcode url = some sc) (hne : sc ≠ "")
    (hf : w.fetchPost sc = FetchOutcome.ok post) :
    (extract_post_data url username password w).result.success = true ∧
    (extract_post_data url username password w).result.media_files =
      successFiles w w.mkdtempDir "image" "jpg" (collectMedia post).1 0 ++
        successFiles w w.mkdtempDir "video" "mp4" (collectMedia post).2 0 ∧
    (extract_post_data url username password w).warnings =
      failWarnings w w.mkdtempDir "image" "jpg" (collectMedia post).1 0 ++
        failWarnings w w.mkdtempDir "video" "mp4" (collectMedia post).2 0 ∧
    ((extract_post_data url username password w).events.filter isRetrieveEvent).length =
      (collectMedia post).1.length + (collectMedia post).2.length := by
  rw [aux_extract_reach url username password w sc post hc hl hs hne hf]
  refine ⟨rfl, ?_, ?_, ?_⟩
  · show (downloadAll w w.mkdtempDir "image" "jpg" (collectMedia post).1 0).files ++
      (downloadAll w w.mkdtempDir "video" "mp4" (collectMedia post).2 0).files = _
    rw [aux_dl_files, aux_dl_files]
  · show (downloadAll w w.mkdtempDir "image" "jpg" (collectMedia post).1 0).warns ++
      (downloadAll w w.mkdtempDir "video" "mp4" (collectMedia post).2 0).warns = _
    rw [aux_dl_warns, aux_dl_warns]
  · have himg := aux_dl_attempts w w.mkdtempDir "image" "jpg" (collectMedia post).1 0
    have hvid := aux_dl_attempts w w.mkdtempDir "video" "mp4" (collectMedia post).2 0
    have hb : (buildResult url sc w.mkdtempDir post w).events =
        (downloadAll w w.mkdtempDir "image" "jpg" (collectMedia post).1 0).events ++
          (downloadAll w w.mkdtempDir "video" "mp4" (collectMedia post).2 0).events := rfl
    cases hcred : truthyOpt username && truthyOpt password <;>
      simp [hb, List.filter_append, List.filter, isRetrieveEvent, himg, hvid]

/-- Claim C3, witness: a three-image carousel where the second download raises;
the call succeeds, `media_files` holds exactly the first and third entries, one
warning is emitted, and all three downloads were attempted. -/
theorem download_failures_nonfatal_witness :
    (extract_post_data exUrlP none none worldOneFail).result.success = true ∧
    (extract_post_data exUrlP none none worldOneFail).result.media_files =
      [{ type := "image", url := "http://cdn/a1.jpg",
         local_path := "/tmp/instaloader_fix/image_1.jpg", filename := "image_1.jpg" },
       { type := "image", url := "http://cdn/a3.jpg",
         local_path := "/tmp/instaloader_fix/image_3.jpg", filename := "image_3.jpg" }] ∧
    (extract_post_data exUrlP none none worldOneFail).warnings =
      ["Warning: Failed to download image 2: simulated network error"] ∧
    ((extract_post_data exUrlP none none worldOneFail).events.filter isRetrieveEvent).length = 3 := by
  have h := download_failures_nonfatal exUrlP none none worldOneFail "ABC123" threeImagePost
    rfl (Or.inl rfl) (by decide) (by decide) rfl
  exact ⟨h.1, h.2.1.trans (by decide), h.2.2.1.trans (by decide), h.2.2.2.trans (by decide)⟩

/-- Claim C4: for a multi-item carousel (a non-video post of typename
`GraphSidecar`), the children are iterated in order, each contributing its
video URL if it is a video and its display image URL otherwise; `image_urls`
and `video_urls` are the two order-preserving partitions of the child list. -/
theorem carousel_order_partition (url : String) (username password : Option String)
    (w : World) (sc : String) (post : Post)
    (hc : w.constructError = none)
    (hl : (truthyOpt username && truthyOpt password) = false ∨
      w.login (username.getD "") (password.getD "") = LoginOutcome.ok)
    (hs : extractShortcode url = some sc) (hne : sc ≠ "")
    (hf : w.fetchPost sc = FetchOutcome.ok post)
    (hv : post.is_video = false) (ht : post.typename = "GraphSidecar") :
    (extract_post_data url username password w).result.image_urls =
      (post.sidecar_nodes.filter fun n => !n.is_video).map SidecarNode.display_url ∧
    (extract_post_data url username password w).result.video_urls =
      (post.sidecar_nodes.filter fun n => n.is_video).map SidecarNode.video_url := by
  rw [aux_extract_reach url username password w sc post hc hl hs hne hf]
  have hm : collectMedia post =
      ((post.sidecar_nodes.filter fun n => !n.is_video).map SidecarNode.display_url,
       (post.sidecar_nodes.filter fun n => n.is_video).map SidecarNode.video_url) := by
    unfold collectMedia
    rw [hv, ht]
    simp [aux_collectSidecar]
  exact ⟨congrArg Prod.fst hm, congrArg Prod.snd hm⟩

/-- Claim C4, witness: the carousel [image, video, image] yields two image URLs
in original order and one video URL. -/
theorem carousel_order_partition_witness :
    (extract_post_data exUrlP none none (worldFor carouselPost)).result.image_urls =
      ["http://cdn/c1.jpg", "http://cdn/c3.jpg"] ∧
    (extract_post_data exUrlP none none (worldFor carouselPost)).result.video_urls =
      ["http://cdn/c2.mp4"] := by
  have h := carousel_order_partition exUrlP none none (worldFor carouselPost) "ABC123"
    carouselPost rfl (Or.inl rfl) (by decide) (by decide) rfl rfl rfl
  exact ⟨h.1.trans (by decide), h.2.trans (by decide)⟩

/-- Claim C5: for every successfully fetched post, `is_reel` equals
`post.is_video AND ("/reel/" occurs in the original request URL)`. -/
theorem is_reel_requires_reel_marker (url : String) (username password : Option String)
    (w : World) (sc : String) (post : Post)
    (hc : w.constructError = none)
    (hl : (truthyOpt username && truthyOpt password) = false ∨
      w.login (username.getD "") (password.getD "") = LoginOutcome.ok)
    (hs : extractShortcode url = some sc) (hne : sc ≠ "")
    (hf : w.fetchPost sc = FetchOutcome.ok post) :
    (extract_post_data url username password w).result.is_reel =
      (post.is_video && pyIn "/reel/" url) := by
  rw [aux_extract_reach url username password w sc post hc hl hs hne hf]
  rfl

/-- Claim C5, witness: a video post fetched via a `/p/` URL (no `/reel/`
marker) yields `is_reel = false`. -/
theorem is_reel_requires_reel_marker_witness :
    (extract_post_data exUrlP none none (worldFor videoPost)).result.is_reel = false := by
  have h := is_reel_requires_reel_marker exUrlP none none (worldFor videoPost) "ABC123"
    videoPost rfl (Or.inl rfl) (by decide) (by decide) rfl
  exact h.trans (by decide)

/-- Claim C6: the identifier is the path segment following `/p/` or `/reel/`,
truncated at the next `/` or `?`: `https://www.instagram.com/p/ABC123/` gives
`ABC123` and `https://www.instagram.com/reel/XYZ789?utm=1` gives `XYZ789`. -/
theorem shortcode_extraction_examples :
    extractShortcode "https://www.instagram.com/p/ABC123/" = some "ABC123" ∧
    extractShortcode "https://www.instagram.com/reel/XYZ789?utm=1" = some "XYZ789" := by decide

/-- Claim C7: for every successfully fetched post, the `hashtags` field has no
duplicates and its members are exactly the matches of `#` followed by one or
more word characters in the caption (so as a set it is the deduplicated set of
hashtag matches; order is not significant). -/
theorem hashtags_dedup_matches (url : String) (username password : Option String)
    (w : World) (sc : String) (post : Post)
    (hc : w.constructError = none)
    (hl : (truthyOpt username && truthyOpt password) = false ∨
      w.login (username.getD "") (password.getD "") = LoginOutcome.ok)
    (hs : extractShortcode url = some sc) (hne : sc ≠ "")
    (hf : w.fetchPost sc = FetchOutcome.ok post) :
    (extract_post_data url username password w).result.hashtags.Nodup ∧
    (∀ s, s ∈ (extract_post_data url username password w).result.hashtags ↔
      s ∈ findHashtags (post.caption.getD "")) := by
  rw [aux_extract_reach url username password w sc post hc hl hs hne hf]
  constructor
  · show (if post.caption.getD "" = "" then []
      else (findHashtags (post.caption.getD "")).dedup).Nodup
    split
    · exact List.nodup_nil
    · exact List.nodup_dedup _
  · intro s
    show s ∈ (if post.caption.getD "" = "" then []
      else (findHashtags (post.caption.getD "")).dedup) ↔ _
    split
    · rename_i hcap
      rw [hcap]
      exact Iff.rfl
    · exact List.mem_dedup

/-- Claim C7, witness: the caption "Great day! #sunny #fun #sunny" yields a
duplicate-free hashtag list whose members are exactly #sunny and #fun. -/
theorem hashtags_dedup_matches_witness :
    (extract_post_data exUrlP none none (worldFor captionPost)).result.hashtags.Nodup ∧
    (extract_post_data exUrlP none none (worldFor captionPost)).result.hashtags =
      ["#fun", "#sunny"] := by
  have h := hashtags_dedup_matches exUrlP none none (worldFor captionPost) "ABC123"
    captionPost rfl (Or.inl rfl) (by decide) (by decide) rfl
  exact ⟨h.1, by decide⟩

/-- Claim C8: provided client construction succeeds, login is attempted (a
`login` event appears in the trace) if and only if both username and password
are non-empty; and when they are not both non-empty, the result can never be
the invalid-credentials or two-factor-required error. -/
theorem login_iff_credentials (url : String) (username password : Option String) (w : World)
    (hc : w.constructError = none) :
    ((∃ u, Event.login u ∈ (extract_post_data url username password w).events) ↔
      (truthyOpt username && truthyOpt password) = true) ∧
    ((truthyOpt username && truthyOpt password) = false →
      (extract_post_data url username password w).result.error ≠
        some "Invalid Instagram credentials" ∧
      (extract_post_data url username password w).result.error ≠
        some "Two-factor authentication required. Please use Instagram Basic Display API instead.") := by
  unfold extract_post_data
  rw [hc]
  by_cases hT : (truthyOpt username && truthyOpt password) = true
  · rw [if_pos hT]
    constructor
    · constructor
      · intro _; exact hT
      · intro _; exact ⟨username.getD "", List.mem_cons_self _ _⟩
    · intro hF; rw [hT] at hF; cases hF
  · rw [if_neg hT]
    constructor
    · constructor
      · rintro ⟨u, hu⟩
        rcases aux_afterLogin_events_mem url w _ hu with h | ⟨s, h⟩ | ⟨a, b, h⟩ | ⟨fn, h⟩ <;>
          exact Event.noConfusion h
      · intro h; exact absurd h hT
    · intro _
      exact aux_afterLogin_error_not_login url w

/-- Claim C8, witness: with no credentials, no login event occurs and the
result is not a credentials error. -/
theorem login_iff_credentials_witness :
    (¬ ∃ u, Event.login u ∈ (extract_post_data exUrlP none none (worldFor imagePost)).events) ∧
    (extract_post_data exUrlP none none (worldFor imagePost)).result.error ≠
      some "Invalid Instagram credentials" := by
  have h := login_iff_credentials exUrlP none none (worldFor imagePost) rfl
  exact ⟨fun hx => absurd (h.1.mp hx) (by decide), (h.2 rfl).1⟩

/-- Claim C9, counterexample: the claim says the temporary directory is created
exactly once per extract call, but a call with a malformed URL completes
(returning the error result) without creating any directory. -/
theorem tempdir_not_created_on_malformed_url_cx :
    (extract_post_data "https://example.com/about" none none
        (worldFor imagePost)).result.success = false ∧
    (extract_post_data "https://example.com/about" none none
        (worldFor imagePost)).events.countP isMkdtempEvent = 0 := by decide

/-- Claim C9, amended: the temporary directory is created at most once per
extract call — exactly once as soon as the call passes client construction,
login, and shortcode validation (whatever the fetch outcome) — and extract
never deletes it: no return path emits a directory-removal event. -/
theorem tempdir_at_most_once_never_deleted (url : String) (username password : Option String)
    (w : World) :
    ((extract_post_data url username password w).events.countP isMkdtempEvent ≤ 1) ∧
    (∀ p, Event.rmtree p ∉ (extract_post_data url username password w).events) ∧
    (∀ sc, w.constructError = none →
      ((truthyOpt username && truthyOpt password) = false ∨
        w.login (username.getD "") (password.getD "") = LoginOutcome.ok) →
      extractShortcode url = some sc → sc ≠ "" →
      (extract_post_data url username password w).events.countP isMkdtempEvent = 1) := by
  refine ⟨aux_extract_count_le url username password w, ?_, ?_⟩
  · intro p hp
    rcases aux_extract_events_mem url username password w _ hp with
      ⟨u, h⟩ | h | ⟨s, h⟩ | ⟨a, b, h⟩ | ⟨fn, h⟩ <;> exact Event.noConfusion h
  · intro sc hc hl hs hne
    rw [aux_extract_eq url username password w hc hl]
    show ((if truthyOpt username && truthyOpt password then [Event.login (username.getD "")]
      else []) ++ (afterLogin url w).events).countP isMkdtempEvent = 1
    rw [List.countP_append]
    have h1 := aux_afterLogin_count_one url w sc hs hne
    cases hcred : truthyOpt username && truthyOpt password <;> simp [isMkdtempEvent, h1]

/-- Claim C9, amended, witness: on a well-formed URL the directory is created
exactly once. -/
theorem tempdir_at_most_once_never_deleted_witness :
    (extract_post_data exUrlP none none (worldFor imagePost)).events.countP isMkdtempEvent = 1 :=
  (tempdir_at_most_once_never_deleted exUrlP none none (worldFor imagePost)).2.2 "ABC123"
    rfl (Or.inl rfl) (by decide) (by decide)

/-- Claim C10: the `--temp-dir` flag has no effect: two CLI invocations
differing only in `temp_dir` produce identical behaviour (same result, same
events, same warnings, same exit code), and every file the run writes lies in
the freshly created `mkdtemp` directory, never in the directory named by the
flag. -/
theorem temp_dir_flag_no_effect (url : String) (un pw td td' : Option String)
    (env : Env) (w : World) :
    mainRun { url := url, username := un, password := pw, temp_dir := td } env w =
      mainRun { url := url, username := un, password := pw, temp_dir := td' } env w ∧
    (∀ p, Event.fileWrite p ∈
        (mainRun { url := url, username := un, password := pw, temp_dir := td } env w).out.events →
      ∃ fn, p = w.mkdtempDir ++ "/" ++ fn) := by
  refine ⟨rfl, ?_⟩
  intro p hp
  rcases aux_extract_events_mem url (pyOrStr un env.INSTAGRAM_USERNAME)
      (pyOrStr pw env.INSTAGRAM_PASSWORD) w _ hp with
    ⟨u, h⟩ | h | ⟨s, h⟩ | ⟨a, b, h⟩ | ⟨fn, h⟩
  · exact Event.noConfusion h
  · exact Event.noConfusion h
  · exact Event.noConfusion h
  · exact Event.noConfusion h
  · exact ⟨fn, by injection h⟩

/-- Claim C10, witness: in a concrete run the single written file lies in the
`mkdtemp` directory. -/
theorem temp_dir_flag_no_effect_witness :
    ∃ fn, "/tmp/instaloader_fix/image_1.jpg" = (worldFor imagePost).mkdtempDir ++ "/" ++ fn :=
  (temp_dir_flag_no_effect exUrlP none none (some "/alt") (some "/alt2") {}
    (worldFor imagePost)).2 "/tmp/instaloader_fix/image_1.jpg" (by decide)
